import Mathlib

/-!
Shallow embedding of the TLS 1.3 connection state machine implemented in
src/lib/tls/tls13/tls_channel_impl_13.cpp (class Channel_Impl_13).

The Record Layer, Handshake Layer, Cipher_State, transcript hash, the Alert
wire class and the per-message dispatcher (process_handshake_msg) are external
collaborators of that translation unit.  They are modelled here as explicit
data: the results the Record Layer yields from next_record are given as a
script of NextRecordResult values, the parse outcome of a handshake fragment
is attached to the record event, and the externally implemented dispatcher is
described by a MsgEffect value attached to each drained message.  Machine
bytes are modelled as Nat.
-/

namespace BotanTLS

/-- Alert descriptions used by this translation unit (Alert::Type values of
the library; the numeric codes follow RFC 8446). -/
inductive AlertType
  | closeNotify
  | unexpectedMessage
  | badRecordMAC
  | recordOverflow
  | handshakeFailure
  | illegalParameter
  | decodeError
  | decryptError
  | internalError
  | userCanceled
  | nullAlert
  | otherCode (code : Nat)
deriving DecidableEq

/-- Wire code of an alert description (RFC 8446 section 6). -/
def AlertType.code : AlertType → Nat
  | .closeNotify => 0
  | .unexpectedMessage => 10
  | .badRecordMAC => 20
  | .recordOverflow => 22
  | .handshakeFailure => 40
  | .illegalParameter => 47
  | .decodeError => 50
  | .decryptError => 51
  | .internalError => 80
  | .userCanceled => 90
  | .nullAlert => 256
  | .otherCode c => c

/-- An alert message: a description and the fatal flag (the level byte).
The Alert wire class is external to the translation unit; only the fields
this unit reads are modelled. -/
structure Alert where
  type : AlertType
  fatal : Bool
deriving DecidableEq

/-- Modelled from the spec: well-formedness of an alert (Alert::is_valid of
the external alert class) — a default-constructed alert carries the null
description and is invalid, every other description is valid. -/
def Alert.is_valid (a : Alert) : Bool := a.type != AlertType.nullAlert

/-- Modelled from the spec: the two-byte wire form of an alert (level byte,
then the description code), produced by the external Alert::serialize. -/
def Alert.serialize (a : Alert) : List Nat :=
  [if a.fatal then 2 else 1, a.type.code]

/-- Anonymous-namespace helper of the translation unit: an alert is a closure
alert when it is close_notify or user_canceled. -/
def is_closure_alert (a : Alert) : Bool :=
  a.type == AlertType.closeNotify || a.type == AlertType.userCanceled

/-- Anonymous-namespace helper: in TLS 1.3 every non-closure alert is an
error alert (RFC 8446 section 6). -/
def is_error_alert (a : Alert) : Bool := !is_closure_alert a

/-- The externally owned cipher state (Cipher_State).  Only the capability
queries and key-erasure flags this unit touches are modelled. -/
structure CipherState where
  canEncryptAppTraffic : Bool
  canExportKeys : Bool
  readKeysCleared : Bool
  writeKeysCleared : Bool
deriving DecidableEq

/-- Key erasure for the inbound direction (Cipher_State::clear_read_keys). -/
def CipherState.clear_read_keys (cs : CipherState) : CipherState :=
  { cs with readKeysCleared := true }

/-- Key erasure for the outbound direction (Cipher_State::clear_write_keys). -/
def CipherState.clear_write_keys (cs : CipherState) : CipherState :=
  { cs with writeKeysCleared := true }

/-- Record content types of the record layer (Record_Type). -/
inductive RecordType
  | changeCipherSpec
  | alert
  | handshake
  | applicationData
  | unknown (code : Nat)
deriving DecidableEq

/-- The callback surface invoked by this unit: outbound bytes handed to the
record layer and emitted (logged with the record type and plaintext handed to
prepare_records, since framing and encryption are external), decrypted
application data delivered to the application, and parsed alerts forwarded. -/
inductive Callback
  | tls_emit_data (rtype : RecordType) (plaintext : List Nat)
  | tls_record_received (seqNo : Nat) (data : List Nat)
  | tls_alert (a : Alert)
deriving DecidableEq

/-- The closed set of handshake-message variants of Handshake_Message_13. -/
inductive HandshakeMessage
  | clientHello13
  | serverHello13
  | serverHello12
  | helloRetryRequest
  | encryptedExtensions
  | certificate13
  | certificateRequest13
  | certificateVerify13
  | finished13
  | newSessionTicket13
deriving DecidableEq

/-- The variants that must align exactly with a record boundary, mirroring
the holds_any_of check of received_data: Client_Hello_13, Server_Hello_13,
Hello_Retry_Request and Finished_13 (Server_Hello_12 deliberately excluded). -/
def requiresRecordBoundary : HandshakeMessage → Bool
  | .clientHello13 => true
  | .serverHello13 => true
  | .helloRetryRequest => true
  | .finished13 => true
  | _ => false

/-- Errors thrown inside the translation unit, keyed by the catch cascade of
received_data: TLS_Exception carries an alert description; the remaining
constructors stand for the Invalid_Authentication_Tag, Decoding_Error,
Invalid_State (BOTAN_STATE_CHECK) and Internal_Error (BOTAN_ASSERT)
exception classes, of which only the first three have dedicated handlers. -/
inductive TLSError
  | tlsException (alert : AlertType)
  | invalidAuthTag
  | decodingError
  | invalidState
  | internalAssert
deriving DecidableEq

/-- The effect of the externally implemented per-message dispatcher
(process_handshake_msg is pure virtual in this unit): it may extend the
transcript, install or replace the cipher state, emit records through
send_record, or throw.  It never touches the downgrade staging, the closure
flags or the handshake layer, which are owned by this unit. -/
structure MsgEffect where
  transcriptAppend : List Nat
  installCipher : Option CipherState
  emits : List (RecordType × List Nat)
  raise : Option TLSError
deriving DecidableEq

/-- State of the external Handshake Layer as visible to this unit: the
complete messages next_message will yield (each with the dispatch effect of
its externally implemented processing) and whether an incomplete trailing
fragment is buffered. -/
structure HandshakeLayer where
  messages : List (HandshakeMessage × MsgEffect)
  pendingFragment : Bool
deriving DecidableEq

/-- Handshake_Layer::has_pending_data: any unconsumed buffered bytes, i.e.
a still-complete message or an incomplete trailing fragment. -/
def HandshakeLayer.has_pending_data (hl : HandshakeLayer) : Bool :=
  !hl.messages.isEmpty || hl.pendingFragment

/-- Modelled from the spec: the downgrade staging (Downgrade_Information,
declared in the channel header, not in this unit) — buffered first client
hello bytes, mirrored peer transcript bytes and the will_downgrade flag.
The captured collaborator handles (server information, callbacks, session
manager, credentials manager, rng, policy) are borrowed references and carry
no state of their own, so they are not modelled. -/
structure DowngradeInformation where
  clientHelloMsg : List Nat
  peerTranscript : List Nat
  willDowngrade : Bool
deriving DecidableEq

/-- Connection side (Connection_Side). -/
inductive ConnectionSide
  | client
  | server
deriving DecidableEq

/-- The connection state owned by Channel_Impl_13 that this unit reads and
writes: side, the two closure flags, the optionally present cipher state,
the handshake-layer buffer, the running transcript (modelled as the list of
bytes fed to it) and the optional downgrade staging. -/
structure Channel where
  side : ConnectionSide
  canRead : Bool
  canWrite : Bool
  cipherState : Option CipherState
  handshakeLayer : HandshakeLayer
  transcriptHash : List Nat
  downgradeInfo : Option DowngradeInformation
deriving DecidableEq

/-- The constructor Channel_Impl_13::Channel_Impl_13: side from is_server,
both closure flags true, no cipher state, empty layers, no staging. -/
def Channel.init (isServer : Bool) : Channel :=
  ⟨if isServer then .server else .client, true, true, none, ⟨[], false⟩, [], none⟩

/-- Modelled from the spec: is_downgrading (channel header) — staging exists
and its will_downgrade flag is set. -/
def Channel.is_downgrading (ch : Channel) : Bool :=
  match ch.downgradeInfo with
  | none => false
  | some di => di.willDowngrade

/-- Modelled from the spec: expects_downgrade (channel header) — downgrade
staging is present. -/
def Channel.expects_downgrade (ch : Channel) : Bool := ch.downgradeInfo.isSome

/-- Modelled from the spec: preserve_peer_transcript (channel header) —
mirror the raw inbound bytes into the staging buffer while staging exists. -/
def Channel.preserve_peer_transcript (ch : Channel) (input : List Nat) : Channel :=
  match ch.downgradeInfo with
  | none => ch
  | some di =>
      let di1 := { di with peerTranscript := di.peerTranscript ++ input }
      { ch with downgradeInfo := some di1 }

/-- Channel_Impl_13::expect_downgrade: install fresh downgrade staging with
empty buffers and will_downgrade false. -/
def Channel.expect_downgrade (ch : Channel) : Channel :=
  { ch with downgradeInfo := some ⟨[], [], false⟩ }

/-- Channel_Impl_13::shutdown: clear both closure flags and release the
cipher state (RFC 8446 section 6.2). -/
def Channel.shutdown (ch : Channel) : Channel :=
  { ch with canRead := false, canWrite := false, cipherState := none }

/-- Channel_Impl_13::is_active: cipher state present and able to encrypt
application traffic, and the write side still open. -/
def Channel.is_active (ch : Channel) : Bool :=
  (match ch.cipherState with
   | none => false
   | some cs => cs.canEncryptAppTraffic) && ch.canWrite

/-- Channel_Impl_13::send_record: state-check not downgrading and the write
side open, then hand the plaintext to the record layer and the framed bytes
to the outbound callback.  Framing and encryption are external and leave the
modelled connection state unchanged, so the emission is logged with the
record type and plaintext handed over. -/
def Channel.send_record (ch : Channel) (rtype : RecordType) (plaintext : List Nat) :
    Except TLSError (List Callback) :=
  if ch.is_downgrading then .error .invalidState
  else if !ch.canWrite then .error .invalidState
  else .ok [Callback.tls_emit_data rtype plaintext]

/-- Channel_Impl_13::send: require an active connection, else throw
Invalid_State; otherwise frame the bytes as application data. -/
def Channel.send (ch : Channel) (buf : List Nat) : Except TLSError (List Callback) :=
  if !ch.is_active then .error .invalidState
  else ch.send_record .applicationData buf

/-- Result of an alert-path operation: the new connection state, the
callbacks invoked, and whether an absent cipher state was dereferenced
(undefined behaviour in the source, modelled as a crash marker). -/
structure AlertStep where
  ch : Channel
  log : List Callback
  crashed : Bool
deriving DecidableEq

/-- Channel_Impl_13::send_alert: if the alert is valid and writing is still
permitted, best-effort transmit it (failures of send_record are swallowed);
a closure alert then disables writes and erases write keys — dereferencing
the cipher state without a presence check; an error alert shuts down. -/
def Channel.send_alert (ch : Channel) (alert : Alert) : AlertStep :=
  let log1 :=
    if alert.is_valid && ch.canWrite then
      match ch.send_record .alert alert.serialize with
      | .ok l => l
      | .error _ => []
    else []
  if is_closure_alert alert then
    let ch2 := { ch with canWrite := false }
    match ch2.cipherState with
    | none => ⟨ch2, log1, true⟩
    | some cs => ⟨{ ch2 with cipherState := some cs.clear_write_keys }, log1, false⟩
  else
    ⟨ch.shutdown, log1, false⟩

/-- Channel_Impl_13::process_alert on the parsed alert (the Alert(record)
parse itself is the external Alert constructor, applied at the call site):
a closure alert disables reads and erases read keys — dereferencing the
cipher state without a presence check; an error alert shuts down; the parsed
alert is then forwarded to the alert callback. -/
def Channel.process_alert (ch : Channel) (alert : Alert) : AlertStep :=
  if is_closure_alert alert then
    let ch1 := { ch with canRead := false }
    match ch1.cipherState with
    | none => ⟨ch1, [], true⟩
    | some cs =>
        ⟨{ ch1 with cipherState := some cs.clear_read_keys }, [Callback.tls_alert alert], false⟩
  else
    ⟨ch.shutdown, [Callback.tls_alert alert], false⟩

/-- Modelled from the spec: send_fatal_alert (channel header) — forward a
fatal alert of the given description to send_alert. -/
def Channel.send_fatal_alert (ch : Channel) (t : AlertType) : AlertStep :=
  ch.send_alert ⟨t, true⟩

/-- A decoded record as pulled from the external record layer, together with
the externally determined parse outcome of its payload: a handshake record
carries the complete messages the handshake layer will yield after the
fragment is appended and whether an incomplete fragment remains; an alert
record carries the parse outcome of the external Alert constructor (none
standing for a fragment whose parse throws Decoding_Error); an application
data record carries its sequence number and fragment. -/
inductive RecordEvent
  | handshake (msgs : List (HandshakeMessage × MsgEffect)) (pendingAfter : Bool)
  | changeCipherSpec
  | applicationData (seqNo : Option Nat) (fragment : List Nat)
  | alert (parsed : Option Alert)
  | unknown (code : Nat)
deriving DecidableEq

/-- Whether the record has the HANDSHAKE content type. -/
def RecordEvent.isHandshake : RecordEvent → Bool
  | .handshake _ _ => true
  | _ => false

/-- One result of Record_Layer::next_record: the byte count still needed, a
decoded record, or a thrown decryption error (for instance
Invalid_Authentication_Tag on a failed AEAD check). -/
inductive NextRecordResult
  | bytesNeeded (n : Nat)
  | pulled (r : RecordEvent)
  | raised (e : TLSError)
deriving DecidableEq

/-- Observable completion of received_data: a normal return value, a thrown
error, a dereference of an absent cipher state (undefined behaviour), or the
exhaustion of the modelled record-layer script (a real record layer always
eventually yields a byte count, so theorems supply scripts that do). -/
inductive Outcome
  | ret (n : Nat)
  | err (e : TLSError)
  | crash
  | noMoreResults
deriving DecidableEq

/-- Apply the externally implemented dispatch of one handshake message to the
connection: extend the transcript, install a cipher state if the dispatcher
derived one, report its emissions and a possibly thrown error. -/
def applyMsgEffect (ch : Channel) (e : MsgEffect) :
    Channel × List Callback × Option TLSError :=
  let ch1 := { ch with
    transcriptHash := ch.transcriptHash ++ e.transcriptAppend,
    cipherState :=
      match e.installCipher with
      | none => ch.cipherState
      | some cs => some cs }
  (ch1, e.emits.map (fun p => Callback.tls_emit_data p.1 p.2), e.raise)

/-- The drain loop of received_data over the complete handshake messages of
one record (the while over next_message): for each message, first the
record-boundary alignment check — a Client_Hello_13, Server_Hello_13,
Hello_Retry_Request or Finished_13 followed by further buffered data throws
Unexpected_Message — then the external dispatch, then the downgrade
bookkeeping: a Server_Hello_12 requires staging to exist (BOTAN_STATE_CHECK),
marks will_downgrade and returns zero; any other message discards the
staging and draining continues.  The third component none means the record
was fully drained and the outer loop continues. -/
def drainMessages : Channel → List (HandshakeMessage × MsgEffect) → Bool →
    Channel × List Callback × Option Outcome
  | ch, [], pendingTail => ({ ch with handshakeLayer := ⟨[], pendingTail⟩ }, [], none)
  | ch, (m, eff) :: restMsgs, pendingTail =>
    let ch0 := { ch with handshakeLayer := ⟨restMsgs, pendingTail⟩ }
    if requiresRecordBoundary m && ch0.handshakeLayer.has_pending_data then
      (ch0, [], some (.err (.tlsException .unexpectedMessage)))
    else
      let stepped := applyMsgEffect ch0 eff
      match stepped.2.2 with
      | some e => (stepped.1, stepped.2.1, some (.err e))
      | none =>
        if m == .serverHello12 then
          match stepped.1.downgradeInfo with
          | none => (stepped.1, stepped.2.1, some (.err .invalidState))
          | some di =>
              let di1 := { di with willDowngrade := true }
              ({ stepped.1 with downgradeInfo := some di1 }, stepped.2.1, some (.ret 0))
        else
          let cont := drainMessages { stepped.1 with downgradeInfo := none } restMsgs pendingTail
          (cont.1, stepped.2.1 ++ cont.2.1, cont.2.2)

/-- The record-dispatch loop of received_data over the script of next_record
results: a byte count ends the loop returning it; a thrown decryption error
propagates; otherwise a record whose type is not HANDSHAKE while the
handshake layer holds pending data throws Unexpected_Message; a handshake
record is appended (copy_data) and drained; a change-cipher-spec record is
silently dropped; an application-data record must carry a sequence number
(BOTAN_ASSERT) and is forwarded to the data callback; an alert record is
parsed and processed; an unknown record type throws Unexpected_Message. -/
def processPulls : Channel → List NextRecordResult → Channel × List Callback × Outcome
  | ch, [] => (ch, [], .noMoreResults)
  | ch, p :: rest =>
    match p with
    | .bytesNeeded n => (ch, [], .ret n)
    | .raised e => (ch, [], .err e)
    | .pulled r =>
      if !r.isHandshake && ch.handshakeLayer.has_pending_data then
        (ch, [], .err (.tlsException .unexpectedMessage))
      else
        match r with
        | .handshake msgs pendingAfter =>
          let d := drainMessages ch msgs pendingAfter
          match d.2.2 with
          | some oc => (d.1, d.2.1, oc)
          | none =>
            let c := processPulls d.1 rest
            (c.1, d.2.1 ++ c.2.1, c.2.2)
        | .changeCipherSpec => processPulls ch rest
        | .applicationData seqNo fragment =>
          match seqNo with
          | none => (ch, [], .err .internalAssert)
          | some n =>
            let c := processPulls ch rest
            (c.1, Callback.tls_record_received n fragment :: c.2.1, c.2.2)
        | .alert parsed =>
          match parsed with
          | none => (ch, [], .err .decodingError)
          | some a =>
            let st := ch.process_alert a
            if st.crashed then (st.ch, st.log, .crash)
            else
              let c := processPulls st.ch rest
              (c.1, st.log ++ c.2.1, c.2.2)
        | .unknown _ => (ch, [], .err (.tlsException .unexpectedMessage))

/-- The catch cascade at the end of received_data: a TLS_Exception maps to
its own alert description, Invalid_Authentication_Tag to bad_record_mac,
Decoding_Error to decode_error, and every unclassified error (including
Invalid_State and Internal_Error) to internal_error. -/
def alertForError : TLSError → AlertType
  | .tlsException t => t
  | .invalidAuthTag => .badRecordMAC
  | .decodingError => .decodeError
  | .invalidState => .internalError
  | .internalAssert => .internalError

/-- Channel_Impl_13::received_data: state-check not downgrading (outside the
try block, so no alert is sent for it); ignore all input once the read side
is closed; mirror the raw input into the downgrade staging while staging is
active; then run the record-dispatch loop, and on any thrown error send the
mapped fatal alert best-effort and re-raise the original error. -/
def Channel.received_data (ch : Channel) (input : List Nat)
    (pulls : List NextRecordResult) : Channel × List Callback × Outcome :=
  if ch.is_downgrading then (ch, [], .err .invalidState)
  else if !ch.canRead then (ch, [], .ret 0)
  else
    let ch1 := if ch.expects_downgrade then ch.preserve_peer_transcript input else ch
    let res := processPulls ch1 pulls
    match res.2.2 with
    | .err e =>
      let st := res.1.send_fatal_alert (alertForError e)
      (st.ch, res.2.1 ++ st.log, if st.crashed then .crash else .err e)
    | oc => (res.1, res.2.1, oc)

/-- The connection state after the external dispatch of one handshake
message whose record left msgs2 and pendingAfter buffered: exactly the
channel produced by applyMsgEffect after the layer update of the drain
loop (spelled out for use in lemma statements). -/
def dispatchedChannel (ch : Channel) (eff : MsgEffect)
    (msgs2 : List (HandshakeMessage × MsgEffect)) (pendingAfter : Bool) : Channel :=
  { ch with
    handshakeLayer := ⟨msgs2, pendingAfter⟩,
    transcriptHash := ch.transcriptHash ++ eff.transcriptAppend,
    cipherState :=
      match eff.installCipher with
      | none => ch.cipherState
      | some cs => some cs }

/-- Sample cipher state used by concrete witnesses. -/
def csSample : CipherState := ⟨true, true, false, false⟩

/-- Client connection whose handshake layer holds an incomplete message
fragment, used by concrete counterexamples. -/
def chPending : Channel := ⟨.client, true, true, some csSample, ⟨[], true⟩, [], none⟩

/-- Client connection with an installed cipher state, used by witnesses. -/
def chActive : Channel := ⟨.client, true, true, some csSample, ⟨[], false⟩, [], none⟩

/-- Dispatch effect that does nothing, used by concrete witnesses. -/
def effNil : MsgEffect := ⟨[], none, [], none⟩

/-! Helper lemmas shared by the claim theorems. -/

/-- Mirroring inbound bytes into the downgrade staging leaves the handshake
layer untouched. -/
theorem preserve_peer_transcript_handshakeLayer (ch : Channel) (input : List Nat) :
    (ch.preserve_peer_transcript input).handshakeLayer = ch.handshakeLayer := by
  unfold Channel.preserve_peer_transcript
  cases ch.downgradeInfo <;> rfl

/-- Mirroring inbound bytes into the downgrade staging leaves the read flag
untouched. -/
theorem preserve_peer_transcript_canRead (ch : Channel) (input : List Nat) :
    (ch.preserve_peer_transcript input).canRead = ch.canRead := by
  unfold Channel.preserve_peer_transcript
  cases ch.downgradeInfo <;> rfl

/-- Sending a non-closure alert never dereferences the cipher state. -/
theorem send_alert_not_closure_crashed (ch : Channel) (a : Alert)
    (h : is_closure_alert a = false) : (ch.send_alert a).crashed = false := by
  unfold Channel.send_alert
  simp [h]

/-- Sending a non-closure (error) alert shuts the connection down. -/
theorem send_alert_not_closure_ch (ch : Channel) (a : Alert)
    (h : is_closure_alert a = false) : (ch.send_alert a).ch = ch.shutdown := by
  unfold Channel.send_alert
  simp [h]

/-- When the alert is valid, the write side open and the channel not
downgrading, send_alert hands exactly the serialized alert to the record
layer for emission. -/
theorem send_alert_log_transmitted (ch : Channel) (a : Alert)
    (hv : a.is_valid = true) (hw : ch.canWrite = true) (hd : ch.is_downgrading = false) :
    (ch.send_alert a).log = [Callback.tls_emit_data .alert a.serialize] := by
  unfold Channel.send_alert Channel.send_record
  simp only [hv, hw, hd, Bool.and_self, if_true, Bool.not_true, if_false]
  split <;> cases ch.cipherState <;> simp

/-- C8: shutdown is idempotent — a second invocation produces the same
observable state (both closure flags false, cipher state released) as the
first. -/
theorem claim_C8_shutdown_idempotent (ch : Channel) :
    ch.shutdown.shutdown = ch.shutdown ∧ ch.shutdown.canRead = false ∧
      ch.shutdown.canWrite = false ∧ ch.shutdown.cipherState = none :=
  ⟨rfl, rfl, rfl, rfl⟩

/-- C6: both closure-alert paths erase keys on the cipher state without a
presence check, so on a connection whose cipher state is still absent,
sending a closure alert (clear_write_keys) and processing a received closure
alert (clear_read_keys) both dereference an absent cipher state. -/
theorem claim_C6_closure_alert_null_deref (ch : Channel) (a : Alert)
    (h1 : ch.cipherState = none) (h2 : is_closure_alert a = true) :
    (ch.send_alert a).crashed = true ∧ (ch.process_alert a).crashed = true := by
  unfold Channel.send_alert Channel.process_alert
  simp [h1, h2]

/-- C6 witness: a freshly constructed server connection has no cipher state,
and close_notify on either path dereferences the absent cipher state. -/
theorem claim_C6_witness :
    (Channel.init true).cipherState = none ∧
    is_closure_alert ⟨.closeNotify, true⟩ = true ∧
    ((Channel.init true).send_alert ⟨.closeNotify, true⟩).crashed = true ∧
    ((Channel.init true).process_alert ⟨.closeNotify, true⟩).crashed = true :=
  ⟨rfl, rfl,
   (claim_C6_closure_alert_null_deref (Channel.init true) ⟨.closeNotify, true⟩ rfl rfl).1,
   (claim_C6_closure_alert_null_deref (Channel.init true) ⟨.closeNotify, true⟩ rfl rfl).2⟩

/-- C7: on a connection that is not active — cipher state absent, or not
capable of application-traffic encryption, or the write side closed — send
fails with Invalid_State and returns no emission, so neither prepare_records
nor the outbound-byte callback is reached. -/
theorem claim_C7_send_inactive_fails (ch : Channel) (buf : List Nat)
    (h : ch.cipherState = none ∨
         (∃ cs, ch.cipherState = some cs ∧ cs.canEncryptAppTraffic = false) ∨
         ch.canWrite = false) :
    ch.is_active = false ∧ ch.send buf = Except.error TLSError.invalidState := by
  have ha : ch.is_active = false := by
    unfold Channel.is_active
    rcases h with h | ⟨cs, hcs, hcap⟩ | h
    · simp [h]
    · simp [hcs, hcap]
    · simp [h]
  refine ⟨ha, ?_⟩
  unfold Channel.send
  simp [ha]

/-- C7 witness: a fresh server connection (no cipher state) rejects send. -/
theorem claim_C7_witness :
    (Channel.init true).cipherState = none ∧
    (Channel.init true).send [1, 2] = Except.error TLSError.invalidState :=
  ⟨rfl, (claim_C7_send_inactive_fails (Channel.init true) [1, 2] (Or.inl rfl)).2⟩

/-- C4: processing a received closure alert clears can_read and leaves
can_write unchanged, while sending a closure alert clears can_write and
leaves can_read unchanged — the two closure directions are independent
(stated for connections whose cipher state is present; an absent cipher
state instead dereferences null, see the C6 theorem). -/
theorem claim_C4_half_close (ch : Channel) (a : Alert) (cs : CipherState)
    (h1 : ch.cipherState = some cs) (h2 : is_closure_alert a = true) :
    (ch.process_alert a).ch.canRead = false ∧
    (ch.process_alert a).ch.canWrite = ch.canWrite ∧
    (ch.send_alert a).ch.canWrite = false ∧
    (ch.send_alert a).ch.canRead = ch.canRead := by
  unfold Channel.process_alert Channel.send_alert
  simp [h1, h2]

/-- When the record-dispatch loop throws, received_data sends the mapped
fatal alert best-effort (shutting the connection down, since every mapped
alert here is an error alert) and re-raises the original error. -/
theorem received_data_err_parts (ch : Channel) (input : List Nat)
    (pulls : List NextRecordResult) (e : TLSError)
    (h1 : ch.is_downgrading = false) (h2 : ch.canRead = true)
    (h3 : (processPulls (if ch.expects_downgrade then ch.preserve_peer_transcript input else ch)
            pulls).2.2 = .err e)
    (h4 : is_closure_alert ⟨alertForError e, true⟩ = false) :
    ch.received_data input pulls =
      ((processPulls (if ch.expects_downgrade then ch.preserve_peer_transcript input else ch)
          pulls).1.shutdown,
       (processPulls (if ch.expects_downgrade then ch.preserve_peer_transcript input else ch)
          pulls).2.1 ++
         ((processPulls (if ch.expects_downgrade then ch.preserve_peer_transcript input else ch)
            pulls).1.send_fatal_alert (alertForError e)).log,
       .err e) := by
  have hc := send_alert_not_closure_crashed
    (processPulls (if ch.expects_downgrade then ch.preserve_peer_transcript input else ch)
      pulls).1 ⟨alertForError e, true⟩ h4
  have hch := send_alert_not_closure_ch
    (processPulls (if ch.expects_downgrade then ch.preserve_peer_transcript input else ch)
      pulls).1 ⟨alertForError e, true⟩ h4
  unfold Channel.received_data
  unfold Channel.send_fatal_alert at hc hch ⊢
  simp only [h1, h2, Bool.not_true, if_false, Bool.false_eq_true, h3, hc, hch]

/-- C4 witness: close_notify on a connection with an installed cipher state
closes exactly one direction on each path. -/
theorem claim_C4_witness :
    (chActive.process_alert ⟨.closeNotify, false⟩).ch.canRead = false ∧
    (chActive.process_alert ⟨.closeNotify, false⟩).ch.canWrite = chActive.canWrite ∧
    (chActive.send_alert ⟨.closeNotify, false⟩).ch.canWrite = false ∧
    (chActive.send_alert ⟨.closeNotify, false⟩).ch.canRead = chActive.canRead :=
  claim_C4_half_close chActive ⟨.closeNotify, false⟩ csSample rfl rfl

/-- C1 counterexample: with an incomplete handshake message pending, a
pulled Handshake-type record is NOT rejected — processing appends the
fragment and continues, returning the byte count with no error and no
callback, contrary to the claim that a Handshake-type record is illegal
while a message is pending. -/
theorem claim_C1_counterexample :
    chPending.handshakeLayer.has_pending_data = true ∧
    (RecordEvent.handshake [] true).isHandshake = true ∧
    chPending.received_data [] [.pulled (.handshake [] true), .bytesNeeded 7] =
      (chPending, [], .ret 7) := by
  decide

/-- C1 (amended): while the Handshake Layer still holds an incomplete
message, a pulled record of any type OTHER than Handshake is illegal and
raises the unexpected_message protocol error, which received_data re-raises
after sending the fatal alert; a Handshake-type record is the legal
continuation. -/
theorem claim_C1_amended (ch : Channel) (input : List Nat) (r : RecordEvent)
    (rest : List NextRecordResult)
    (h1 : ch.is_downgrading = false) (h2 : ch.canRead = true)
    (h3 : ch.handshakeLayer.has_pending_data = true) (h4 : r.isHandshake = false) :
    processPulls ch (.pulled r :: rest) =
      (ch, [], .err (.tlsException .unexpectedMessage)) ∧
    (ch.received_data input (.pulled r :: rest)).2.2 =
      .err (.tlsException .unexpectedMessage) := by
  have hloop : ∀ c : Channel, c.handshakeLayer.has_pending_data = true →
      processPulls c (.pulled r :: rest) =
        (c, [], .err (.tlsException .unexpectedMessage)) := by
    intro c hp
    unfold processPulls
    simp [hp, h4]
  refine ⟨hloop ch h3, ?_⟩
  have h3' : (processPulls
      (if ch.expects_downgrade then ch.preserve_peer_transcript input else ch)
      (.pulled r :: rest)).2.2 = .err (.tlsException .unexpectedMessage) := by
    split
    · rw [hloop (ch.preserve_peer_transcript input)
        (by rw [preserve_peer_transcript_handshakeLayer]; exact h3)]
    · rw [hloop ch h3]
  rw [received_data_err_parts ch input (.pulled r :: rest)
    (.tlsException .unexpectedMessage) h1 h2 h3' rfl]

/-- C1 amended witness: an application-data record pulled while a handshake
message is pending raises unexpected_message. -/
theorem claim_C1_amended_witness :
    chPending.is_downgrading = false ∧ chPending.canRead = true ∧
    chPending.handshakeLayer.has_pending_data = true ∧
    (RecordEvent.applicationData (some 1) [5]).isHandshake = false ∧
    processPulls chPending [.pulled (.applicationData (some 1) [5])] =
      (chPending, [], .err (.tlsException .unexpectedMessage)) ∧
    (chPending.received_data [] [.pulled (.applicationData (some 1) [5])]).2.2 =
      .err (.tlsException .unexpectedMessage) := by
  refine ⟨rfl, rfl, rfl, rfl, ?_, ?_⟩
  · exact (claim_C1_amended chPending [] (.applicationData (some 1) [5]) []
      rfl rfl rfl rfl).1
  · exact (claim_C1_amended chPending [] (.applicationData (some 1) [5]) []
      rfl rfl rfl rfl).2

/-- C2: a drained Client_Hello_13, Server_Hello_13, Hello_Retry_Request or
Finished_13 followed by further buffered handshake-layer data raises the
unexpected additional data protocol error before the message is dispatched;
when the message exactly fills its record (nothing buffered after it) and
its dispatch does not throw, no error is raised for it. -/
theorem claim_C2_record_boundary (ch : Channel) (m : HandshakeMessage)
    (eff : MsgEffect) (restMsgs : List (HandshakeMessage × MsgEffect))
    (pendingTail : Bool) (hb : requiresRecordBoundary m = true) :
    ((restMsgs ≠ [] ∨ pendingTail = true) →
      drainMessages ch ((m, eff) :: restMsgs) pendingTail =
        ({ ch with handshakeLayer := ⟨restMsgs, pendingTail⟩ }, [],
         some (.err (.tlsException .unexpectedMessage)))) ∧
    (eff.raise = none →
      (drainMessages ch [(m, eff)] false).2.2 = none) := by
  constructor
  · intro hp
    have hpd : HandshakeLayer.has_pending_data ⟨restMsgs, pendingTail⟩ = true := by
      unfold HandshakeLayer.has_pending_data
      rcases hp with hp | hp
      · simp [hp]
      · simp [hp]
    unfold drainMessages
    simp [hb, hpd]
  · intro hr
    have hm : (m == HandshakeMessage.serverHello12) = false := by
      cases m <;> simp_all [requiresRecordBoundary]
    unfold drainMessages
    simp [hb, hr, hm, applyMsgEffect, HandshakeLayer.has_pending_data, drainMessages]

/-- C2 witness: a ClientHello with trailing buffered bytes raises the error;
a ClientHello that exactly fills its record drains cleanly. -/
theorem claim_C2_witness :
    requiresRecordBoundary .clientHello13 = true ∧
    drainMessages (Channel.init false) [(.clientHello13, effNil)] true =
      ({ Channel.init false with handshakeLayer := ⟨[], true⟩ }, [],
       some (.err (.tlsException .unexpectedMessage))) ∧
    (drainMessages (Channel.init false) [(.clientHello13, effNil)] false).2.2 = none := by
  refine ⟨rfl, ?_, ?_⟩
  · exact (claim_C2_record_boundary (Channel.init false) .clientHello13 effNil
      [] true rfl).1 (Or.inr rfl)
  · exact (claim_C2_record_boundary (Channel.init false) .clientHello13 effNil
      [] false rfl).2 rfl

/-- C9 counterexample: with an incomplete handshake message pending, a
pulled ChangeCipherSpec record is not silently consumed — the interleaving
check throws unexpected_message before the ChangeCipherSpec branch is
reached, so the claimed phase-independence fails. -/
theorem claim_C9_counterexample :
    chPending.handshakeLayer.has_pending_data = true ∧
    processPulls chPending [.pulled .changeCipherSpec, .bytesNeeded 1] =
      (chPending, [], .err (.tlsException .unexpectedMessage)) ∧
    processPulls chPending [.bytesNeeded 1] = (chPending, [], .ret 1) := by
  decide

/-- C9 (amended): provided the Handshake Layer holds no incomplete message,
a pulled ChangeCipherSpec record is fully consumed with no callback and no
state change — processing the remaining records exactly as if the record had
not been there — whatever the connection phase (the closure flags, cipher
state and downgrade staging are arbitrary). -/
theorem claim_C9_amended (ch : Channel) (rest : List NextRecordResult)
    (h : ch.handshakeLayer.has_pending_data = false) :
    processPulls ch (.pulled .changeCipherSpec :: rest) = processPulls ch rest := by
  conv_lhs => unfold processPulls
  simp [h]

/-- C5: an error thrown inside the record-dispatch loop is caught exactly
once at the received_data boundary, mapped by the catch cascade — a
TLS_Exception to its own alert description, an authentication-tag failure
to bad_record_mac, a decoding failure to decode_error, anything unclassified
to internal_error — transmitted best-effort (the single mapped alert is
emitted when the write side is still open and the channel not downgrading),
the connection is shut down, and the original error is re-raised to the
caller.  The loop itself never raises a closure-classified TLS_Exception or
an invalid alert description, which the last two hypotheses record. -/
theorem claim_C5_error_boundary (ch : Channel) (input : List Nat)
    (pulls : List NextRecordResult) (e : TLSError)
    (h1 : ch.is_downgrading = false) (h2 : ch.canRead = true)
    (h3 : (processPulls (if ch.expects_downgrade then ch.preserve_peer_transcript input else ch)
            pulls).2.2 = .err e)
    (h4 : is_closure_alert ⟨alertForError e, true⟩ = false)
    (h5 : Alert.is_valid ⟨alertForError e, true⟩ = true) :
    (ch.received_data input pulls).2.2 = .err e ∧
    (ch.received_data input pulls).1 =
      (processPulls (if ch.expects_downgrade then ch.preserve_peer_transcript input else ch)
        pulls).1.shutdown ∧
    ((processPulls (if ch.expects_downgrade then ch.preserve_peer_transcript input else ch)
        pulls).1.is_downgrading = false →
     (processPulls (if ch.expects_downgrade then ch.preserve_peer_transcript input else ch)
        pulls).1.canWrite = true →
     (ch.received_data input pulls).2.1 =
       (processPulls (if ch.expects_downgrade then ch.preserve_peer_transcript input else ch)
         pulls).2.1 ++
         [Callback.tls_emit_data .alert (Alert.serialize ⟨alertForError e, true⟩)]) := by
  have heq := received_data_err_parts ch input pulls e h1 h2 h3 h4
  refine ⟨by rw [heq], by rw [heq], ?_⟩
  intro hd hw
  have hlog := send_alert_log_transmitted
    (processPulls (if ch.expects_downgrade then ch.preserve_peer_transcript input else ch)
      pulls).1 ⟨alertForError e, true⟩ h5 hw hd
  rw [heq]
  unfold Channel.send_fatal_alert
  rw [hlog]

/-- C5 witness: an unknown record type on a fresh client raises a
TLS_Exception mapped to its own unexpected_message alert, which is emitted
and then the error is re-raised. -/
theorem claim_C5_witness :
    ((Channel.init false).received_data [] [.pulled (.unknown 42)]).2.2 =
      .err (.tlsException .unexpectedMessage) ∧
    ((Channel.init false).received_data [] [.pulled (.unknown 42)]).1 =
      (processPulls (if (Channel.init false).expects_downgrade then
          (Channel.init false).preserve_peer_transcript [] else Channel.init false)
        [.pulled (.unknown 42)]).1.shutdown ∧
    ((processPulls (if (Channel.init false).expects_downgrade then
          (Channel.init false).preserve_peer_transcript [] else Channel.init false)
        [.pulled (.unknown 42)]).1.is_downgrading = false →
     (processPulls (if (Channel.init false).expects_downgrade then
          (Channel.init false).preserve_peer_transcript [] else Channel.init false)
        [.pulled (.unknown 42)]).1.canWrite = true →
     ((Channel.init false).received_data [] [.pulled (.unknown 42)]).2.1 =
       (processPulls (if (Channel.init false).expects_downgrade then
           (Channel.init false).preserve_peer_transcript [] else Channel.init false)
         [.pulled (.unknown 42)]).2.1 ++
         [Callback.tls_emit_data .alert
            (Alert.serialize ⟨alertForError (.tlsException .unexpectedMessage), true⟩)]) :=
  claim_C5_error_boundary (Channel.init false) [] [.pulled (.unknown 42)]
    (.tlsException .unexpectedMessage) rfl rfl rfl rfl rfl

/-- C3: after expect_downgrade, if the first handshake message processed by
received_data is a legacy-version ServerHello (Server_Hello_12), the
will_downgrade flag is set and received_data returns zero, its callback log
being exactly the dispatcher's own emissions — in particular the
application-data callback is never invoked; if the first processed message
is anything else (its dispatch completing without a throw and, when it is a
record-boundary message, exactly filling its record), the whole call is
identical to the same call on a connection whose downgrade staging was never
installed. -/
theorem claim_C3_downgrade_staging (ch : Channel) (input : List Nat) (eff : MsgEffect)
    (m : HandshakeMessage) (msgs2 : List (HandshakeMessage × MsgEffect))
    (pendingAfter : Bool) (rest : List NextRecordResult)
    (h2 : ch.canRead = true) (h3 : eff.raise = none) :
    (ch.expect_downgrade.received_data input
        (.pulled (.handshake ((.serverHello12, eff) :: msgs2) pendingAfter) :: rest)
      = ({ dispatchedChannel ch eff msgs2 pendingAfter with
            downgradeInfo := some ⟨[], input, true⟩ },
         eff.emits.map (fun p => Callback.tls_emit_data p.1 p.2),
         .ret 0)) ∧
    (∀ n d, Callback.tls_record_received n d ∉
        eff.emits.map (fun p => Callback.tls_emit_data p.1 p.2)) ∧
    (m ≠ .serverHello12 →
     (requiresRecordBoundary m = true → msgs2 = [] ∧ pendingAfter = false) →
     ch.expect_downgrade.received_data input
         (.pulled (.handshake ((m, eff) :: msgs2) pendingAfter) :: rest)
       = ({ ch with downgradeInfo := none }).received_data input
         (.pulled (.handshake ((m, eff) :: msgs2) pendingAfter) :: rest)) := by
  refine ⟨?_, ?_, ?_⟩
  · unfold Channel.received_data Channel.expect_downgrade Channel.is_downgrading
      Channel.expects_downgrade Channel.preserve_peer_transcript processPulls
      drainMessages applyMsgEffect dispatchedChannel
    simp [h2, h3, requiresRecordBoundary, RecordEvent.isHandshake]
  · intro n d
    simp [List.mem_map]
  · intro hm hb
    have hmb : (m == HandshakeMessage.serverHello12) = false := by
      cases m <;> simp_all
    by_cases hbnd : requiresRecordBoundary m = true
    · obtain ⟨he1, he2⟩ := hb hbnd
      subst he1
      subst he2
      unfold Channel.received_data Channel.expect_downgrade Channel.is_downgrading
        Channel.expects_downgrade Channel.preserve_peer_transcript processPulls
        drainMessages applyMsgEffect
      simp [h2, h3, hmb, hbnd, RecordEvent.isHandshake, HandshakeLayer.has_pending_data]
    · rw [Bool.not_eq_true] at hbnd
      unfold Channel.received_data Channel.expect_downgrade Channel.is_downgrading
        Channel.expects_downgrade Channel.preserve_peer_transcript processPulls
        drainMessages applyMsgEffect
      simp [h2, h3, hmb, hbnd, RecordEvent.isHandshake, HandshakeLayer.has_pending_data]

/-- C3 witness: a client that staged a downgrade and receives a
Server_Hello_12 first returns zero with will_downgrade set; receiving an
EncryptedExtensions first instead behaves as if expect_downgrade had never
been called. -/
theorem claim_C3_witness :
    ((Channel.init false).expect_downgrade.received_data [9]
        [.pulled (.handshake [(.serverHello12, effNil)] false), .bytesNeeded 4]
      = ({ dispatchedChannel (Channel.init false) effNil [] false with
            downgradeInfo := some ⟨[], [9], true⟩ },
         effNil.emits.map (fun p => Callback.tls_emit_data p.1 p.2),
         .ret 0)) ∧
    (∀ n d, Callback.tls_record_received n d ∉
        effNil.emits.map (fun p => Callback.tls_emit_data p.1 p.2)) ∧
    (HandshakeMessage.encryptedExtensions ≠ .serverHello12 →
     (requiresRecordBoundary .encryptedExtensions = true →
        ([] : List (HandshakeMessage × MsgEffect)) = [] ∧ false = false) →
     (Channel.init false).expect_downgrade.received_data [9]
         [.pulled (.handshake [(.encryptedExtensions, effNil)] false), .bytesNeeded 4]
       = ({ Channel.init false with downgradeInfo := none }).received_data [9]
         [.pulled (.handshake [(.encryptedExtensions, effNil)] false), .bytesNeeded 4]) :=
  claim_C3_downgrade_staging (Channel.init false) [9] effNil .encryptedExtensions [] false
    [.bytesNeeded 4] rfl rfl

/-- C10: a legacy-version ServerHello (Server_Hello_12) processed while no
downgrade staging exists fails the BOTAN_STATE_CHECK on m_downgrade_info
with Invalid_State instead of marking will_downgrade; the unclassified
catch-all maps it to an internal_error fatal alert (emitted when the write
side is open), and the Invalid_State error is re-raised. -/
theorem claim_C10_sh12_without_staging (ch : Channel) (input : List Nat)
    (eff : MsgEffect) (msgs2 : List (HandshakeMessage × MsgEffect))
    (pendingAfter : Bool) (rest : List NextRecordResult)
    (h1 : ch.downgradeInfo = none) (h2 : ch.canRead = true) (h3 : eff.raise = none) :
    (ch.received_data input
        (.pulled (.handshake ((.serverHello12, eff) :: msgs2) pendingAfter) :: rest)).2.2
      = .err .invalidState ∧
    (ch.received_data input
        (.pulled (.handshake ((.serverHello12, eff) :: msgs2) pendingAfter) :: rest)).1.downgradeInfo
      = none ∧
    (ch.canWrite = true →
      (ch.received_data input
          (.pulled (.handshake ((.serverHello12, eff) :: msgs2) pendingAfter) :: rest)).2.1
        = eff.emits.map (fun p => Callback.tls_emit_data p.1 p.2) ++
            [Callback.tls_emit_data .alert [2, 80]]) := by
  have hd : ch.is_downgrading = false := by
    unfold Channel.is_downgrading
    rw [h1]
  have hed : ch.expects_downgrade = false := by
    unfold Channel.expects_downgrade
    rw [h1]
    rfl
  have hinner : processPulls ch
      (.pulled (.handshake ((.serverHello12, eff) :: msgs2) pendingAfter) :: rest)
      = (dispatchedChannel ch eff msgs2 pendingAfter,
         eff.emits.map (fun p => Callback.tls_emit_data p.1 p.2),
         .err .invalidState) := by
    unfold processPulls drainMessages applyMsgEffect dispatchedChannel
    simp [h1, h3, requiresRecordBoundary, RecordEvent.isHandshake]
  have h3' : (processPulls (if ch.expects_downgrade then ch.preserve_peer_transcript input else ch)
      (.pulled (.handshake ((.serverHello12, eff) :: msgs2) pendingAfter) :: rest)).2.2
      = .err .invalidState := by
    rw [hed]
    simp only [Bool.false_eq_true, if_false]
    rw [hinner]
  have heq := received_data_err_parts ch input
    (.pulled (.handshake ((.serverHello12, eff) :: msgs2) pendingAfter) :: rest)
    .invalidState hd h2 h3' rfl
  rw [hed] at heq
  simp only [Bool.false_eq_true, if_false] at heq
  rw [hinner] at heq
  refine ⟨by rw [heq], by rw [heq]; exact h1, ?_⟩
  intro hw
  have hw2 : (dispatchedChannel ch eff msgs2 pendingAfter).canWrite = true := hw
  have hdD : (dispatchedChannel ch eff msgs2 pendingAfter).is_downgrading = false := by
    unfold Channel.is_downgrading dispatchedChannel
    simp [h1]
  have hlog := send_alert_log_transmitted (dispatchedChannel ch eff msgs2 pendingAfter)
    ⟨.internalError, true⟩ rfl hw2 hdD
  simp only [heq, alertForError, Channel.send_fatal_alert]
  rw [hlog]
  rfl

/-- C10 witness: a fresh server receiving a Server_Hello_12 as the first
message with no staging installed raises Invalid_State and emits the fatal
internal_error alert (level 2, description 80). -/
theorem claim_C10_witness :
    ((Channel.init true).received_data []
        [.pulled (.handshake [(.serverHello12, effNil)] false), .bytesNeeded 1]).2.2
      = .err .invalidState ∧
    ((Channel.init true).received_data []
        [.pulled (.handshake [(.serverHello12, effNil)] false), .bytesNeeded 1]).1.downgradeInfo
      = none ∧
    ((Channel.init true).canWrite = true →
      ((Channel.init true).received_data []
          [.pulled (.handshake [(.serverHello12, effNil)] false), .bytesNeeded 1]).2.1
        = effNil.emits.map (fun p => Callback.tls_emit_data p.1 p.2) ++
            [Callback.tls_emit_data .alert [2, 80]]) :=
  claim_C10_sh12_without_staging (Channel.init true) [] effNil [] false
    [.bytesNeeded 1] rfl rfl rfl

/-- C9 amended witness: a fresh client consumes a ChangeCipherSpec record
with no observable effect. -/
theorem claim_C9_amended_witness :
    (Channel.init false).handshakeLayer.has_pending_data = false ∧
    processPulls (Channel.init false) [.pulled .changeCipherSpec, .bytesNeeded 3] =
      processPulls (Channel.init false) [.bytesNeeded 3] :=
  ⟨rfl, claim_C9_amended (Channel.init false) [.bytesNeeded 3] rfl⟩

end BotanTLS
